import Mathlib

/-!
Shallow embedding of KimRass/deeplabv3 (src/model.py, src/train.py).

Tensors are modelled at the shape level: a `Shape` is the (batch, channel,
height, width) quadruple of a rank-4 tensor, and each layer of the network
becomes a partial function `Shape → Option Shape` that returns `none`
exactly when the corresponding PyTorch call raises (channel mismatch,
kernel larger than the padded input, empty spatial dimension).
The learning-rate schedule and the evaluation loop of src/train.py are
embedded as functions on ℝ and on lists of per-batch metric values.
-/

structure Shape where
  b : Nat
  c : Nat
  h : Nat
  w : Nat
deriving DecidableEq, Repr

/-- Output size of one spatial dimension of `nn.Conv2d` / `nn.MaxPool2d`:
`floor((n + 2p - d*(k-1) - 1) / s) + 1`, failing when the effective kernel
exceeds the padded input. -/
def convOutDim (n k s p d : Nat) : Option Nat :=
  if d * (k - 1) + 1 ≤ n + 2 * p then some ((n + 2 * p - (d * (k - 1) + 1)) / s + 1)
  else none

/-- `nn.Conv2d(inC, outC, kernel_size=k, stride=s, padding=p, dilation=d)`:
requires the input channel count to match, maps spatial dims by `convOutDim`. -/
def conv2d (inC outC k s p d : Nat) (x : Shape) : Option Shape :=
  if x.c = inC then
    (convOutDim x.h k s p d).bind fun h' =>
      (convOutDim x.w k s p d).map fun w' => ⟨x.b, outC, h', w'⟩
  else none

/-- `nn.Conv2d(..., padding="same")` with stride 1: spatial dims preserved,
fails on an empty spatial dimension. -/
def convSame (inC outC k d : Nat) (x : Shape) : Option Shape :=
  if x.c = inC ∧ 0 < x.h ∧ 0 < x.w then some ⟨x.b, outC, x.h, x.w⟩ else none

/-- `nn.BatchNorm2d(c)`: checks the channel count, shape preserved. -/
def batchNorm (c : Nat) (x : Shape) : Option Shape :=
  if x.c = c then some x else none

/-- `nn.ReLU()`: shape preserved. -/
def relu (x : Shape) : Option Shape := some x

/-- `RESNET50.maxpool = nn.MaxPool2d(kernel_size=3, stride=2, padding=1)`. -/
def maxpool3s2p1 (x : Shape) : Option Shape :=
  (convOutDim x.h 3 2 1 1).bind fun h' =>
    (convOutDim x.w 3 2 1 1).map fun w' => ⟨x.b, x.c, h', w'⟩

/-- Shape behaviour of a torchvision `Bottleneck(inC, midC)` block producing
`outC = 4 * midC` channels: 1x1 conv, 3x3 conv with stride `s`, padding and
dilation `d`, then 1x1 conv.  The residual shortcut (identity, or a 1x1
stride-`s` convolution when downsampling) always matches the main path's
shape, so the main path determines the block's shape. -/
def bottleneck (inC midC outC s d : Nat) (x : Shape) : Option Shape :=
  ((conv2d inC midC 1 1 0 1 x).bind (conv2d midC midC 3 s d d)).bind
    (conv2d midC outC 1 1 0 1)

/-- `RESNET50.layer1`: three bottlenecks, 64 → 256 channels, stride 1. -/
def resnetLayer1 (x : Shape) : Option Shape :=
  ((bottleneck 64 64 256 1 1 x).bind (bottleneck 256 64 256 1 1)).bind
    (bottleneck 256 64 256 1 1)

/-- `RESNET50.layer2`: four bottlenecks, 256 → 512 channels, first has stride 2. -/
def resnetLayer2 (x : Shape) : Option Shape :=
  (((bottleneck 256 128 512 2 1 x).bind (bottleneck 512 128 512 1 1)).bind
    (bottleneck 512 128 512 1 1)).bind (bottleneck 512 128 512 1 1)

/-- `RESNET50.layer3`: six bottlenecks, 512 → 1024 channels, first has stride 2. -/
def resnetLayer3 (x : Shape) : Option Shape :=
  (((((bottleneck 512 256 1024 2 1 x).bind (bottleneck 1024 256 1024 1 1)).bind
    (bottleneck 1024 256 1024 1 1)).bind (bottleneck 1024 256 1024 1 1)).bind
    (bottleneck 1024 256 1024 1 1)).bind (bottleneck 1024 256 1024 1 1)

/-- `RESNET50.layer4`: three bottlenecks, 1024 → 2048 channels, first has stride 2. -/
def resnetLayer4 (x : Shape) : Option Shape :=
  ((bottleneck 1024 512 2048 2 1 x).bind (bottleneck 2048 512 2048 1 1)).bind
    (bottleneck 2048 512 2048 1 1)

/-- `ResNet50Backbone.conv1_pool1 = nn.Sequential(conv1, bn1, relu, maxpool, layer1)`,
with `conv1 = nn.Conv2d(3, 64, kernel_size=7, stride=2, padding=3)`. -/
def conv1_pool1 (x : Shape) : Option Shape :=
  ((((conv2d 3 64 7 2 3 1 x).bind (batchNorm 64)).bind relu).bind
    maxpool3s2p1).bind resnetLayer1

/-- `ResNet50Backbone.forward`: conv1_pool1, then layer2, layer3, layer4
(source comments: output strides 4, 8, 16, 32). -/
def backboneForward (x : Shape) : Option Shape :=
  (((conv1_pool1 x).bind resnetLayer2).bind resnetLayer3).bind resnetLayer4

/-- `deeplabv3_resnet50().backbone.layer4`: torchvision builds this ResNet-50
with `replace_stride_with_dilation=[False, True, True]`, so layer4 keeps
stride 1 and uses dilation (2 in its first block, 4 afterwards); it still
takes 1024 input channels and yields 2048. -/
def dlv3Layer4 (x : Shape) : Option Shape :=
  ((bottleneck 1024 512 2048 1 2 x).bind (bottleneck 2048 512 2048 1 4)).bind
    (bottleneck 2048 512 2048 1 4)

/-- `ConvBlock(in_channels, kernel_size, dilation).forward`: a `padding="same"`
convolution with 256 filters, batch norm, ReLU. -/
def convBlockF (inC k d : Nat) (x : Shape) : Option Shape :=
  ((convSame inC 256 k d x).bind (batchNorm 256)).bind relu

/-- `nn.AdaptiveAvgPool2d(output_size=1)`: collapses spatial dims to 1x1,
fails on an empty spatial dimension. -/
def adaptiveAvgPool1 (x : Shape) : Option Shape :=
  if 0 < x.h ∧ 0 < x.w then some ⟨x.b, x.c, 1, 1⟩ else none

inductive InterpMode where
  | nearest : InterpMode
  | bilinear : InterpMode
deriving DecidableEq, Repr

/-- `F.interpolate(x, size=(s1, s2), mode=..., align_corners=...)`: `size` is
the output (height, width); the mode and corner alignment do not affect the
shape. -/
def interpolate (size : Nat × Nat) (mode : InterpMode) (alignCorners : Bool)
    (x : Shape) : Option Shape :=
  if 0 < size.1 ∧ 0 < size.2 then some ⟨x.b, x.c, size.1, size.2⟩ else none

/-- `ImagePooling.forward`: the source destructures `_, _, w, h = x.shape`
(binding the tensor's height to `w` and its width to `h`), applies global
average pooling, a 1x1 convolution with 64 input channels, batch norm and
ReLU, and upsamples with `F.interpolate(x, size=(w, h), mode="bilinear",
align_corners=False)`. -/
def imagePoolingForward (x : Shape) : Option Shape :=
  let w := x.h
  let h := x.w
  ((((adaptiveAvgPool1 x).bind (conv2d 64 256 1 1 0 1)).bind
    (batchNorm 256)).bind relu).bind
    (interpolate (w, h) InterpMode.bilinear false)

/-- `torch.cat(xs, dim=1)`: all shapes must agree outside the channel axis;
channel counts add up. -/
def catChannels (xs : List Shape) : Option Shape :=
  match xs with
  | [] => none
  | s :: rest =>
    if rest.all fun t => t.b == s.b && t.h == s.h && t.w == s.w then
      some ⟨s.b, (xs.map Shape.c).sum, s.h, s.w⟩
    else none

/-- `ASPP.forward` for `ASPP(atrous_rates=rates)`: five parallel branches
(`ConvBlock(64, 1, 1)`, three `ConvBlock(64, 3, rates[i])`, `ImagePooling()`),
concatenated along the channel axis. -/
def asppForward (rates : Nat × Nat × Nat) (x : Shape) : Option Shape := do
  let x1 ← convBlockF 64 1 1 x
  let x2 ← convBlockF 64 3 rates.1 x
  let x3 ← convBlockF 64 3 rates.2.1 x
  let x4 ← convBlockF 64 3 rates.2.2 x
  let x5 ← imagePoolingForward x
  catChannels [x1, x2, x3, x4, x5]

/-- The attributes `DeepLabv3.__init__` stores that matter for `forward`. -/
structure DLConfig where
  n_classes : Nat
  atrous_rates : Nat × Nat × Nat
deriving DecidableEq, Repr

/-- `DeepLabv3.__init__(output_stride, n_classes)`: `self.atrous_rates` is
assigned `(6, 12, 18)` only under `if output_stride == 16:`; the later read
`ASPP(atrous_rates=self.atrous_rates)` raises `AttributeError` when the
attribute was never assigned, modelled by `none`. -/
def deepLabv3Init (output_stride n_classes : Nat) : Option DLConfig :=
  let rates : Option (Nat × Nat × Nat) :=
    if output_stride = 16 then some (6, 12, 18) else none
  match rates with
  | some r => some ⟨n_classes, r⟩
  | none => none

/-- `DeepLabv3.forward`: backbone, `block4`, ASPP, `ConvBlock(1280, 1, 1)`,
and the final `nn.Conv2d(256, n_classes, kernel_size=1)`.  There is no
upsampling step. -/
def deeplabForward (cfg : DLConfig) (x : Shape) : Option Shape :=
  ((((backboneForward x).bind dlv3Layer4).bind
    (asppForward cfg.atrous_rates)).bind (convBlockF 1280 1 1)).bind
    (conv2d 256 cfg.n_classes 1 1 0 1)

/-- `get_lr(step, n_steps, power=0.9)` from src/train.py:
`lr = 1 - (step / n_steps) ** power`, over the reals (`**` on a nonnegative
base is real exponentiation). -/
noncomputable def get_lr (step n_steps power : ℝ) : ℝ :=
  1 - (step / n_steps) ^ power

/-- One iteration of the `for batch, (image, gt) in enumerate(val_dl, start=1)`
loop of `evaluate`: the running sum gains the batch's mIoU value, and the
loop variable `batch` (unbound before the first iteration, modelled by
`Option`) becomes the 1-based index of the current batch. -/
def evalStep (acc : ℚ × Option ℕ) (m : ℚ) : ℚ × Option ℕ :=
  (acc.1 + m, some (match acc.2 with | none => 1 | some b => b + 1))

/-- `evaluate(val_dl, model, metric)` from src/train.py, abstracted over the
list of per-batch mIoU values `metric(pred, gt)` the loop body computes:
`sum_miou` starts at 0, `batch` is unbound before the loop, and after the
loop `avg_miou = sum_miou / batch`; with zero batches the read of `batch`
raises `NameError`, modelled by `none`. -/
def evaluate (mious : List ℚ) : Option ℚ :=
  match mious.foldl evalStep (0, none) with
  | (_, none) => none
  | (s, some batch) => some (s / batch)

/-- Python exceptions, as far as the training loop distinguishes them:
`StopIteration` and everything else. -/
inductive PyErr where
  | stopIteration : PyErr
  | other : String → PyErr
deriving DecidableEq, Repr

/-- The minibatch draw of the training loop of src/train.py:
`try: image, gt = next(train_di) except StopIteration: train_di = iter(train_dl);
image, gt = next(train_di)`.  `next` may raise; only `StopIteration` from the
first call is caught, and the retry's `next` is outside the `try`. -/
def drawBatch {It B : Type} (mkIter : Unit → It)
    (next : It → Except PyErr (B × It)) (it : It) : Except PyErr (B × It) :=
  match next it with
  | .ok r => .ok r
  | .error .stopIteration => next (mkIter ())
  | .error e => .error e

/-- One step of the training loop: the guarded minibatch draw followed by the
unguarded remainder (device transfer, lr update, forward, loss, backward,
optimizer step), abstracted as `rest`.  No other `try` block exists in the
loop, so any exception from `rest` propagates. -/
def trainStep {It B R : Type} (mkIter : Unit → It)
    (next : It → Except PyErr (B × It)) (rest : B → Except PyErr R)
    (it : It) : Except PyErr (R × It) :=
  match drawBatch mkIter next it with
  | .error e => .error e
  | .ok (b, it') =>
    match rest b with
    | .error e => .error e
    | .ok r => .ok (r, it')

/-- The names bound at module top level by executing src/model.py: its four
module-level imports by name, the aliased imports, and the assignments and
class statements in order of appearance. -/
def model_py_top_level_names : List String :=
  ["torch", "nn", "F", "ssl", "resnet50", "ResNet50_Weights",
   "deeplabv3_resnet50", "RESNET50", "ResNet50Backbone", "ConvBlock",
   "ImagePooling", "ASPP", "DeepLabv3", "deeplabv3", "x", "out"]

/-- The name src/train.py line 11 imports from module `model`. -/
def train_py_import_from_model : String := "DeepLabv3ResNet101"

/-- `from model import name` succeeds iff `name` is bound in module `model`. -/
def importFromModel (exports : List String) (name : String) : Bool :=
  exports.contains name

lemma convBlockF_eq (inC k d : Nat) (x : Shape) :
    convBlockF inC k d x =
      if x.c = inC ∧ 0 < x.h ∧ 0 < x.w then some ⟨x.b, 256, x.h, x.w⟩
      else none := by
  by_cases h : x.c = inC ∧ 0 < x.h ∧ 0 < x.w <;>
    simp [convBlockF, convSame, batchNorm, relu, h]

lemma imagePoolingForward_eq (x : Shape) :
    imagePoolingForward x =
      if x.c = 64 ∧ 0 < x.h ∧ 0 < x.w then some ⟨x.b, 256, x.h, x.w⟩
      else none := by
  by_cases h : x.c = 64 ∧ 0 < x.h ∧ 0 < x.w
  · obtain ⟨hc, hh, hw⟩ := h
    simp [imagePoolingForward, adaptiveAvgPool1, conv2d, convOutDim, batchNorm,
      relu, interpolate, hc, hh, hw]
  · rw [if_neg h]
    by_cases hs : 0 < x.h ∧ 0 < x.w
    · have hc : ¬ x.c = 64 := fun hc => h ⟨hc, hs⟩
      simp [imagePoolingForward, adaptiveAvgPool1, conv2d, hs, hc]
    · simp [imagePoolingForward, adaptiveAvgPool1, hs]

lemma asppForward_eq (rates : Nat × Nat × Nat) (x : Shape) :
    asppForward rates x =
      if x.c = 64 ∧ 0 < x.h ∧ 0 < x.w then some ⟨x.b, 1280, x.h, x.w⟩
      else none := by
  by_cases h : x.c = 64 ∧ 0 < x.h ∧ 0 < x.w <;>
    simp [asppForward, convBlockF_eq, imagePoolingForward_eq, h, catChannels]

/-- C1: on the repository's own smoke input `x = torch.randn(2, 3, 224, 224)`
(model.py lines 143-144), the forward pass of the constructed
`DeepLabv3()` model fails instead of producing a `(2, 21, 224, 224)`
output: the backbone yields a `(2, 2048, 7, 7)` feature map (all four
ResNet stages are applied), and `block4` expects 1024 input channels, so
the forward raises a channel-mismatch error. -/
theorem deeplab_forward_fails_on_own_smoke_input :
    ((deepLabv3Init 16 21).bind fun cfg => deeplabForward cfg ⟨2, 3, 224, 224⟩)
        = none ∧
    backboneForward ⟨2, 3, 224, 224⟩ = some ⟨2, 2048, 7, 7⟩ ∧
    dlv3Layer4 ⟨2, 2048, 7, 7⟩ = none := by
  refine ⟨?_, rfl, rfl⟩
  rfl

/-- C3: whenever `ASPP.forward` succeeds, its output has exactly
`256 * 5 = 1280` channels, for any atrous rates and any input shape. -/
theorem aspp_output_channels (rates : Nat × Nat × Nat) (x y : Shape)
    (h : asppForward rates x = some y) : y.c = 256 * 5 := by
  rw [asppForward_eq] at h
  by_cases hc : x.c = 64 ∧ 0 < x.h ∧ 0 < x.w
  · rw [if_pos hc, Option.some_inj] at h
    rw [← h]
  · rw [if_neg hc] at h
    exact absurd h (by simp)

theorem aspp_output_channels_witness :
    asppForward (6, 12, 18) ⟨1, 64, 7, 7⟩ = some ⟨1, 1280, 7, 7⟩ ∧
    Shape.c ⟨1, 1280, 7, 7⟩ = 256 * 5 :=
  ⟨rfl, aspp_output_channels (6, 12, 18) ⟨1, 64, 7, 7⟩ ⟨1, 1280, 7, 7⟩ rfl⟩

/-- C7: whenever `ImagePooling.forward` succeeds, its output has the same
spatial height and width as its input: the source's `_, _, w, h = x.shape`
binds the names swapped, but `F.interpolate`'s `size=(w, h)` is read as
(output height, output width), so the two swaps cancel. -/
theorem image_pooling_preserves_spatial (x y : Shape)
    (h : imagePoolingForward x = some y) : y.h = x.h ∧ y.w = x.w := by
  rw [imagePoolingForward_eq] at h
  by_cases hc : x.c = 64 ∧ 0 < x.h ∧ 0 < x.w
  · rw [if_pos hc, Option.some_inj] at h
    rw [← h]
    exact ⟨rfl, rfl⟩
  · rw [if_neg hc] at h
    exact absurd h (by simp)

theorem image_pooling_preserves_spatial_witness :
    imagePoolingForward ⟨1, 64, 3, 5⟩ = some ⟨1, 256, 3, 5⟩ ∧
    (Shape.h ⟨1, 256, 3, 5⟩ = Shape.h ⟨1, 64, 3, 5⟩ ∧
     Shape.w ⟨1, 256, 3, 5⟩ = Shape.w ⟨1, 64, 3, 5⟩) :=
  ⟨rfl, image_pooling_preserves_spatial ⟨1, 64, 3, 5⟩ ⟨1, 256, 3, 5⟩ rfl⟩

/-- C8: src/train.py line 11 does `from model import DeepLabv3ResNet101`, but
executing src/model.py binds no top-level name `DeepLabv3ResNet101` (the
model class is named `DeepLabv3`), so the import fails and the training
program never reaches its training loop. -/
theorem train_import_name_not_in_model :
    importFromModel model_py_top_level_names train_py_import_from_model = false ∧
    importFromModel model_py_top_level_names "DeepLabv3" = true := by
  decide

/-- C9: constructing `DeepLabv3` with any `output_stride` other than 16 fails
(`self.atrous_rates` is only assigned under `output_stride == 16`, and the
later read raises `AttributeError`); with `output_stride = 16` construction
succeeds and the atrous rates are `(6, 12, 18)`. -/
theorem deeplab_init_requires_output_stride_16 (os n : Nat) :
    (os ≠ 16 → deepLabv3Init os n = none) ∧
    deepLabv3Init 16 n = some ⟨n, (6, 12, 18)⟩ := by
  constructor
  · intro h
    simp [deepLabv3Init, h]
  · rfl

theorem deeplab_init_requires_output_stride_16_witness :
    deepLabv3Init 8 21 = none ∧
    deepLabv3Init 16 21 = some ⟨21, (6, 12, 18)⟩ :=
  ⟨(deeplab_init_requires_output_stride_16 8 21).1 (by decide),
   (deeplab_init_requires_output_stride_16 8 21).2⟩

/-- C10: calling `evaluate` on an empty validation loader returns no value:
the loop body never runs, `batch` is never bound, and the final
`sum_miou / batch` raises `NameError`. -/
theorem evaluate_empty_loader_errors : evaluate ([] : List ℚ) = none := rfl

lemma foldl_evalStep_some (l : List ℚ) (s : ℚ) (b : ℕ) :
    l.foldl evalStep (s, some b) = (s + l.sum, some (b + l.length)) := by
  induction l generalizing s b with
  | nil => simp
  | cons x xs ih =>
    rw [List.foldl_cons]
    show xs.foldl evalStep (s + x, some (b + 1)) = _
    rw [ih]
    simp [List.sum_cons, List.length_cons]
    constructor
    · ring
    · omega

/-- C2: for `1 ≤ step < step' ≤ n_steps`, `get_lr` returns exactly
`1 - (step / n_steps) ^ 0.9`, is strictly decreasing in the step, and is 0
at the final step. -/
theorem get_lr_poly_decay (s1 s2 n : ℝ) (h1 : 1 ≤ s1) (h2 : s1 < s2)
    (h3 : s2 ≤ n) :
    get_lr s1 n 0.9 = 1 - (s1 / n) ^ (0.9 : ℝ) ∧
    get_lr s2 n 0.9 < get_lr s1 n 0.9 ∧
    get_lr n n 0.9 = 0 := by
  have hn : (0 : ℝ) < n := by linarith
  refine ⟨rfl, ?_, ?_⟩
  · unfold get_lr
    have hlt : s1 / n < s2 / n := by gcongr
    have h0 : 0 ≤ s1 / n := by positivity
    have := Real.rpow_lt_rpow h0 hlt (by norm_num : (0 : ℝ) < 0.9)
    linarith
  · unfold get_lr
    rw [div_self (ne_of_gt hn), Real.one_rpow]
    ring

theorem get_lr_poly_decay_witness :
    (1 : ℝ) ≤ 1 ∧ (1 : ℝ) < 2 ∧ (2 : ℝ) ≤ 2 ∧
    (get_lr 1 2 0.9 = 1 - ((1 : ℝ) / 2) ^ (0.9 : ℝ) ∧
     get_lr 2 2 0.9 < get_lr 1 2 0.9 ∧
     get_lr 2 2 0.9 = 0) :=
  ⟨le_refl 1, by norm_num, le_refl 2,
   get_lr_poly_decay 1 2 2 (le_refl 1) (by norm_num) (le_refl 2)⟩

/-- C4: on a non-empty validation loader, `evaluate` returns the arithmetic
mean of the per-batch mIoU values: their sum divided by the number of
batches. -/
theorem evaluate_mean_of_batches (l : List ℚ) (h : l ≠ []) :
    evaluate l = some (l.sum / l.length) := by
  cases l with
  | nil => exact absurd rfl h
  | cons x xs =>
    unfold evaluate
    rw [List.foldl_cons]
    show (match xs.foldl evalStep (0 + x, some 1) with
      | (_, none) => none
      | (s, some batch) => some (s / (batch : ℚ))) = _
    rw [foldl_evalStep_some]
    simp [List.sum_cons, List.length_cons]
    ring_nf

theorem evaluate_mean_of_batches_witness :
    ([1/2, 1/4] : List ℚ) ≠ [] ∧
    evaluate [1/2, 1/4] =
      some (([1/2, 1/4] : List ℚ).sum / (([1/2, 1/4] : List ℚ).length : ℚ)) :=
  ⟨List.cons_ne_nil _ _, evaluate_mean_of_batches [1/2, 1/4] (List.cons_ne_nil _ _)⟩

/-- C6: in one step of the training loop, the only caught-and-recovered
exception is `StopIteration` from the minibatch draw — on catching it the
iterator is recreated and `next` is called exactly once more (the draw's
result is exactly that single retry's result, so a second `StopIteration`
propagates) — while any other exception from the draw, and any exception
from the rest of the step, propagates out unchanged. -/
theorem trainloop_catches_only_stopiteration {It B R : Type}
    (mkIter : Unit → It) (next : It → Except PyErr (B × It))
    (rest : B → Except PyErr R) (it : It) :
    (next it = .error .stopIteration →
      drawBatch mkIter next it = next (mkIter ())) ∧
    (∀ msg, next it = .error (.other msg) →
      trainStep mkIter next rest it = .error (.other msg)) ∧
    (∀ b it2 e, next it = .ok (b, it2) → rest b = .error e →
      trainStep mkIter next rest it = .error e) := by
  refine ⟨?_, ?_, ?_⟩
  · intro h
    simp [drawBatch, h]
  · intro msg h
    simp [trainStep, drawBatch, h]
  · intro b it2 e h1 h2
    simp [trainStep, drawBatch, h1, h2]

def mkIterEx : Unit → Nat := fun _ => 0

def nextEx : Nat → Except PyErr (Nat × Nat) := fun n =>
  if n = 5 then .error .stopIteration
  else if n = 7 then .error (.other "device error")
  else .ok (n, n + 1)

def restEx : Nat → Except PyErr Nat := fun b =>
  if b = 3 then .error (.other "nan loss") else .ok b

theorem trainloop_catches_only_stopiteration_witness :
    drawBatch mkIterEx nextEx 5 = nextEx 0 ∧
    trainStep mkIterEx nextEx restEx 7 = .error (.other "device error") ∧
    trainStep mkIterEx nextEx restEx 3 = .error (.other "nan loss") :=
  ⟨(trainloop_catches_only_stopiteration mkIterEx nextEx restEx 5).1 rfl,
   (trainloop_catches_only_stopiteration mkIterEx nextEx restEx 7).2.1
     "device error" rfl,
   (trainloop_catches_only_stopiteration mkIterEx nextEx restEx 3).2.2
     3 4 (.other "nan loss") rfl rfl⟩

lemma convOutDim_k1_s1 (n : Nat) (hn : 0 < n) : convOutDim n 1 1 0 1 = some n := by
  unfold convOutDim
  rw [if_pos (by omega)]
  congr 1
  omega

lemma convOutDim_k3_s1 (n d : Nat) (hn : 0 < n) : convOutDim n 3 1 d d = some n := by
  unfold convOutDim
  rw [if_pos (by omega)]
  congr 1
  omega

lemma convOutDim_k3_s2 (n : Nat) (hn : 0 < n) :
    convOutDim (2 * n) 3 2 1 1 = some n := by
  unfold convOutDim
  rw [if_pos (by omega)]
  congr 1
  omega

lemma convOutDim_k7_s2 (n : Nat) (hn : 0 < n) :
    convOutDim (2 * n) 7 2 3 1 = some n := by
  unfold convOutDim
  rw [if_pos (by omega)]
  congr 1
  omega

lemma conv2d_k1_s1 (inC outC b h w : Nat) (hh : 0 < h) (hw : 0 < w) :
    conv2d inC outC 1 1 0 1 ⟨b, inC, h, w⟩ = some ⟨b, outC, h, w⟩ := by
  simp [conv2d, convOutDim_k1_s1 _ hh, convOutDim_k1_s1 _ hw]

lemma conv2d_k3_s1 (c d b h w : Nat) (hh : 0 < h) (hw : 0 < w) :
    conv2d c c 3 1 d d ⟨b, c, h, w⟩ = some ⟨b, c, h, w⟩ := by
  simp [conv2d, convOutDim_k3_s1 _ _ hh, convOutDim_k3_s1 _ _ hw]

lemma conv2d_k3_s2 (c b h w : Nat) (hh : 0 < h) (hw : 0 < w) :
    conv2d c c 3 2 1 1 ⟨b, c, 2 * h, 2 * w⟩ = some ⟨b, c, h, w⟩ := by
  simp [conv2d, convOutDim_k3_s2 _ hh, convOutDim_k3_s2 _ hw]

lemma conv2d_k7_s2 (b n m : Nat) (hn : 0 < n) (hm : 0 < m) :
    conv2d 3 64 7 2 3 1 ⟨b, 3, 2 * n, 2 * m⟩ = some ⟨b, 64, n, m⟩ := by
  simp [conv2d, convOutDim_k7_s2 _ hn, convOutDim_k7_s2 _ hm]

lemma maxpool3s2p1_eq (b c n m : Nat) (hn : 0 < n) (hm : 0 < m) :
    maxpool3s2p1 ⟨b, c, 2 * n, 2 * m⟩ = some ⟨b, c, n, m⟩ := by
  simp [maxpool3s2p1, convOutDim_k3_s2 _ hn, convOutDim_k3_s2 _ hm]

lemma bottleneck_s1 (inC midC outC d b h w : Nat) (hh : 0 < h) (hw : 0 < w) :
    bottleneck inC midC outC 1 d ⟨b, inC, h, w⟩ = some ⟨b, outC, h, w⟩ := by
  simp [bottleneck, conv2d_k1_s1 inC midC b h w hh hw,
    conv2d_k3_s1 midC d b h w hh hw, conv2d_k1_s1 midC outC b h w hh hw]

lemma bottleneck_s2 (inC midC outC b h w : Nat) (hh : 0 < h) (hw : 0 < w) :
    bottleneck inC midC outC 2 1 ⟨b, inC, 2 * h, 2 * w⟩ = some ⟨b, outC, h, w⟩ := by
  simp [bottleneck, conv2d_k1_s1 inC midC b (2 * h) (2 * w) (by omega) (by omega),
    conv2d_k3_s2 midC b h w hh hw, conv2d_k1_s1 midC outC b h w hh hw]

lemma resnetLayer1_eq (b h w : Nat) (hh : 0 < h) (hw : 0 < w) :
    resnetLayer1 ⟨b, 64, h, w⟩ = some ⟨b, 256, h, w⟩ := by
  simp [resnetLayer1, bottleneck_s1 64 64 256 1 b h w hh hw,
    bottleneck_s1 256 64 256 1 b h w hh hw]

lemma resnetLayer2_eq (b h w : Nat) (hh : 0 < h) (hw : 0 < w) :
    resnetLayer2 ⟨b, 256, 2 * h, 2 * w⟩ = some ⟨b, 512, h, w⟩ := by
  simp [resnetLayer2, bottleneck_s2 256 128 512 b h w hh hw,
    bottleneck_s1 512 128 512 1 b h w hh hw]

lemma resnetLayer3_eq (b h w : Nat) (hh : 0 < h) (hw : 0 < w) :
    resnetLayer3 ⟨b, 512, 2 * h, 2 * w⟩ = some ⟨b, 1024, h, w⟩ := by
  simp [resnetLayer3, bottleneck_s2 512 256 1024 b h w hh hw,
    bottleneck_s1 1024 256 1024 1 b h w hh hw]

lemma resnetLayer4_eq (b h w : Nat) (hh : 0 < h) (hw : 0 < w) :
    resnetLayer4 ⟨b, 1024, 2 * h, 2 * w⟩ = some ⟨b, 2048, h, w⟩ := by
  simp [resnetLayer4, bottleneck_s2 1024 512 2048 b h w hh hw,
    bottleneck_s1 2048 512 2048 1 b h w hh hw]

lemma conv1_pool1_eq (b h w : Nat) (hh : 0 < h) (hw : 0 < w) :
    conv1_pool1 ⟨b, 3, 2 * (2 * (2 * h)), 2 * (2 * (2 * w))⟩
      = some ⟨b, 256, 2 * h, 2 * w⟩ := by
  simp [conv1_pool1, conv2d_k7_s2 b (2 * (2 * h)) (2 * (2 * w)) (by omega) (by omega),
    batchNorm, relu,
    maxpool3s2p1_eq b 64 (2 * h) (2 * w) (by omega) (by omega),
    resnetLayer1_eq b (2 * h) (2 * w) (by omega) (by omega)]

/-- C5 (amended): `ResNet50Backbone.forward` reduces the spatial resolution
by a factor of 32, not 16 or 8: the backbone applies all four ResNet-50
stages (the code's own comments mark the running output stride 4, 8, 16, 32),
mapping a `(b, 3, 32k, 32m)` image to a `(b, 2048, k, m)` feature map. -/
theorem backbone_output_stride_32 (b k m : Nat) (hk : 0 < k) (hm : 0 < m) :
    backboneForward ⟨b, 3, 32 * k, 32 * m⟩ = some ⟨b, 2048, k, m⟩ := by
  have e1 : (32 : Nat) * k = 2 * (2 * (2 * (2 * (2 * k)))) := by ring
  have e2 : (32 : Nat) * m = 2 * (2 * (2 * (2 * (2 * m)))) := by ring
  unfold backboneForward
  rw [e1, e2, conv1_pool1_eq b (2 * (2 * k)) (2 * (2 * m)) (by omega) (by omega)]
  simp [resnetLayer2_eq b (2 * (2 * k)) (2 * (2 * m)) (by omega) (by omega),
    resnetLayer3_eq b (2 * k) (2 * m) (by omega) (by omega),
    resnetLayer4_eq b k m hk hm]

theorem backbone_output_stride_32_witness :
    0 < 7 ∧ backboneForward ⟨1, 3, 32 * 7, 32 * 7⟩ = some ⟨1, 2048, 7, 7⟩ :=
  ⟨by decide, backbone_output_stride_32 1 7 7 (by decide) (by decide)⟩

/-- C5 (counterexample): on a 224x224 input the backbone's output is 7x7,
a reduction by a factor of 32 — not 16 (which would give 14x14) and not 8
(which would give 28x28). -/
theorem backbone_stride_not_16_or_8 :
    backboneForward ⟨1, 3, 224, 224⟩ = some ⟨1, 2048, 7, 7⟩ ∧
    ¬(224 = 16 * 7 ∨ 224 = 8 * 7) :=
  ⟨rfl, by decide⟩
